import Mathlib

/-!
Verification of the Supportly hybrid product-retrieval core.

Shallow embedding of the search pipeline of `src/database/products_repository.py`,
the in-memory store simulation of `src/database/db_connection.py`, the semantic
post-filtering of `src/database/vector_db.py`, and the agent-level sorting of
`src/database/products_agent.py`.

Modelling conventions:
* Python floats (prices, scores) are modelled as `ℚ`.
* A Python dict row is a structure whose optional keys are `Option` fields.
* Python exceptions are modelled with `Except Unit`; a `try/except` block
  becomes a `match` on the `Except` value.
* The semantic tier (ChromaDB + embeddings, an external service) is an oracle
  argument `sem : Except Unit (List Product)`: `Except.error` models an
  exception escaping `vector_db.semantic_search`/`get_vector_db`, `Except.ok`
  the candidate list it produced.
* Python `list.sort(key=...)` (a stable sort) is modelled by the stable
  insertion sort `pySort` with the corresponding strict key order.
-/

namespace Supportly

/-- ASCII substring test: Python `needle in hay` on strings. -/
def prefixOfB : List Char → List Char → Bool
  | [], _ => true
  | _ :: _, [] => false
  | a :: as, b :: bs => a == b && prefixOfB as bs

/-- Python `needle in hay` (contiguous substring containment). -/
def infixOfB (n : List Char) : List Char → Bool
  | [] => n.isEmpty
  | b :: bs => prefixOfB n (b :: bs) || infixOfB n bs

/-- Python `str.lower()` on the repository's ASCII catalog strings. -/
def lowerStr (s : String) : List Char := s.data.map Char.toLower

/-- Stable insertion: `x` is placed before the first element whose key is not
strictly smaller, so earlier elements with equal keys stay in front. -/
def pyInsert {α : Type} (lt : α → α → Bool) (x : α) : List α → List α
  | [] => [x]
  | y :: ys => if lt y x then y :: pyInsert lt x ys else x :: y :: ys

/-- Stable sort by the strict order `lt`; extensionally equal to Python's
stable `list.sort` with the key order whose strict part is `lt`. -/
def pySort {α : Type} (lt : α → α → Bool) (l : List α) : List α :=
  l.foldr (pyInsert lt) []

/-- A row of `IN_MEMORY_DB["brands"]` (db_connection.py L23-29). -/
structure Brand where
  id : Nat
  name : String
deriving DecidableEq, Repr

/-- A row of `IN_MEMORY_DB["categories"]` (db_connection.py L30-36). -/
structure Category where
  id : Nat
  name : String
deriving DecidableEq, Repr

/-- The `attributes` dict of a product; `sizes`/`color` keys may be absent. -/
structure Attrs where
  sizes : Option (List String)
  color : Option (List String)
deriving DecidableEq, Repr

/-- A product dict of `IN_MEMORY_DB["products"]` (db_connection.py L37-98).
`brand_name`, `category_name`, `avg_rating`, `review_count`,
`relevance_score` are the keys that search-time enrichment may add. -/
structure Product where
  id : String
  name : String
  description : String
  brand_id : Nat
  category_id : Nat
  price : ℚ
  sale_price : Option ℚ
  is_on_sale : Bool
  is_featured : Bool := false
  attributes : Option Attrs := none
  brand_name : Option String := none
  category_name : Option String := none
  avg_rating : Option ℚ := none
  review_count : Option Nat := none
  relevance_score : Option ℚ := none
deriving DecidableEq, Repr

/-- A row of `IN_MEMORY_DB["inventory"]` (loaded by db_connection.py
`load_data_from_files`; `check_inventory` never reads it). -/
structure InvRecord where
  product_id : String
  size : String
  color : String
  quantity : Nat
deriving DecidableEq, Repr

/-- The `IN_MEMORY_DB` snapshot (db_connection.py L22-99). -/
structure DB where
  brands : List Brand
  categories : List Category
  products : List Product
  inventory : List InvRecord := []
deriving DecidableEq, Repr

/-- The keyword arguments of `ProductsRepository.search_products`
(products_repository.py L33-43), with the Python defaults. -/
structure SearchArgs where
  query : Option String := none
  category_id : Option Nat := none
  brand_id : Option Nat := none
  price_min : Option ℚ := none
  price_max : Option ℚ := none
  size : Option String := none
  color : Option String := none
  limit : Nat := 10
  offset : Nat := 0
  use_semantic_search : Bool := true
deriving DecidableEq, Repr

/-- The Python expression
`p["sale_price"] if p["is_on_sale"] and p["sale_price"] else p["price"]`
(products_repository.py L377, L381, L471, L475, L491; vector_db.py L242, L247).
Python truthiness: a `None` or zero `sale_price` falls back to `price`. -/
def effPrice (p : Product) : ℚ :=
  match p.sale_price with
  | some sp => if p.is_on_sale ∧ sp ≠ 0 then sp else p.price
  | none => p.price

/-- Modelled from the spec: "Effective price: sale_price if on sale, else
price" (spec 3, glossary) — the definition the spec's price-filter sentences
use, to be compared with the source's `effPrice`. -/
def claimEffPrice (p : Product) : ℚ :=
  if p.is_on_sale then p.sale_price.getD p.price else p.price

/-- A query parameter bound into the simulated SQL call (`*args` of
`DatabaseConnection.execute_query`). -/
inductive PyArg
  | num : ℚ → PyArg
  | str : String → PyArg
  | strList : List String → PyArg
deriving DecidableEq, Repr

/-- `DatabaseConnection.execute_query`, products branch
(db_connection.py L170-188): the simulation ignores the SQL text except
for the presence of `WHERE`; each nonempty *string* argument narrows the rows
by substring match on name/description, every other argument (ints, floats,
id lists — hence LIMIT, OFFSET and price bounds) is ignored. -/
def executeQueryProducts (db : DB) (hasWhere : Bool) (args : List PyArg) : List Product :=
  if hasWhere then
    args.foldl (fun res arg =>
      match arg with
      | PyArg.str s =>
        if s.trim ≠ "" then
          res.filter (fun p =>
            infixOfB (lowerStr s) (lowerStr p.name) || infixOfB (lowerStr s) (lowerStr p.description))
        else res
      | _ => res) db.products
  else db.products

/-- Size/color post-processing used after a SQL products query
(products_repository.py L145-157 and L287-299): a product with *no*
`attributes` dict, or without the `sizes`/`color` key, passes the check. -/
def passesLenient (size color : Option String) (p : Product) : Bool :=
  let sizeOk :=
    match size, p.attributes with
    | some s, some a => (match a.sizes with | some ss => ss.contains s | none => true)
    | some _, none => true
    | none, _ => true
  let colorOk :=
    match color, p.attributes with
    | some c, some a => (match a.color with | some cs => cs.contains c | none => true)
    | some _, none => true
    | none, _ => true
  sizeOk && colorOk

/-- The `if size is not None or color is not None:` post-filter block
(products_repository.py L145-157 / L287-299). -/
def lenientSizeColor (size color : Option String) (l : List Product) : List Product :=
  if size.isSome || color.isSome then l.filter (passesLenient size color) else l

/-- `[p for p in results if effective_price >= price_min]`
(products_repository.py L376-377 / L470-471; vector_db.py L241-242). -/
def priceMinFilter (v : ℚ) (l : List Product) : List Product :=
  l.filter (fun p => decide (v ≤ effPrice p))

/-- `[p for p in results if effective_price <= price_max]`
(products_repository.py L380-381 / L474-475; vector_db.py L246-247). -/
def priceMaxFilter (v : ℚ) (l : List Product) : List Product :=
  l.filter (fun p => decide (effPrice p ≤ v))

/-- Strict size filter (products_repository.py L383-387 / L477-481): the
product must *have* an `attributes` dict with a `sizes` key containing the
requested size. -/
def strictSizeFilter (size : Option String) (l : List Product) : List Product :=
  match size with
  | none => l
  | some s =>
    l.filter (fun p =>
      match p.attributes with
      | some a => (match a.sizes with | some ss => ss.contains s | none => false)
      | none => false)

/-- Strict color filter (products_repository.py L389-393 / L483-487). -/
def strictColorFilter (color : Option String) (l : List Product) : List Product :=
  match color with
  | none => l
  | some c =>
    l.filter (fun p =>
      match p.attributes with
      | some a => (match a.color with | some cs => cs.contains c | none => false)
      | none => false)

/-- `ProductsRepository._filter_candidates` (products_repository.py L348-396):
in-memory filtering of vector-search candidates, then pagination. -/
def filterCandidates (candidates : List Product) (pmin pmax : Option ℚ)
    (size color : Option String) (limit offset : Nat) : List Product :=
  let r := candidates
  let r := match pmin with | some v => priceMinFilter v r | none => r
  let r := match pmax with | some v => priceMaxFilter v r | none => r
  let r := strictSizeFilter size r
  let r := strictColorFilter color r
  (r.drop offset).take limit

/-- The query-text filter of `_fallback_search` (products_repository.py
L431-460): brand/category names co-occurring with "shoes" select whole
brands/categories, otherwise substring match on name+description.
The Python dicts keyed by lowercased name keep, per name, the id of the
*last* entry; only membership in the resulting id list is used. -/
def fallbackTextFilter (q : String) (db : DB) (l : List Product) : List Product :=
  let ql := lowerStr q
  let brandNames := (db.brands.map (fun b => lowerStr b.name)).dedup
  let brandMatches := (brandNames.filter (fun nm => infixOfB nm ql)).filterMap
    (fun nm => (db.brands.reverse.find? (fun b => lowerStr b.name == nm)).map Brand.id)
  let catNames := (db.categories.map (fun c => lowerStr c.name)).dedup
  let categoryMatches := (catNames.filter (fun nm => infixOfB nm ql)).filterMap
    (fun nm => (db.categories.reverse.find? (fun c => lowerStr c.name == nm)).map Category.id)
  if brandMatches ≠ [] ∧ infixOfB (lowerStr "shoes") ql then
    l.filter (fun p => brandMatches.contains p.brand_id)
  else if categoryMatches ≠ [] ∧ infixOfB (lowerStr "shoes") ql then
    l.filter (fun p => categoryMatches.contains p.category_id)
  else
    l.filter (fun p => infixOfB ql (lowerStr p.name) || infixOfB ql (lowerStr p.description))

/-- Sort key rank of `_fallback_search`'s `results.sort` (products_repository.py
L490-491): key = `(not is_featured, effective_price)`, so featured first. -/
def featRank (p : Product) : Nat := if p.is_featured then 0 else 1

/-- Strict part of the `_fallback_search` sort-key order. -/
def fbLt (p q : Product) : Bool :=
  featRank p < featRank q || (featRank p == featRank q && decide (effPrice p < effPrice q))

/-- Filter chain and sort of `_fallback_search` (products_repository.py
L427-491), before pagination. -/
def fallbackFiltered (query : Option String) (cat brand : Option Nat)
    (pmin pmax : Option ℚ) (size color : Option String) (db : DB) : List Product :=
  let results := db.products
  let results := match query with
    | some q => if q ≠ "" then fallbackTextFilter q db results else results
    | none => results
  let results := match cat with | some c => results.filter (fun p => p.category_id == c) | none => results
  let results := match brand with | some b => results.filter (fun p => p.brand_id == b) | none => results
  let results := match pmin with | some v => priceMinFilter v results | none => results
  let results := match pmax with | some v => priceMaxFilter v results | none => results
  let results := strictSizeFilter size results
  let results := strictColorFilter color results
  pySort fbLt results

/-- `results[offset:offset+limit]` (products_repository.py L494). -/
def fallbackPageRaw (query : Option String) (cat brand : Option Nat)
    (pmin pmax : Option ℚ) (size color : Option String) (limit offset : Nat)
    (db : DB) : List Product :=
  ((fallbackFiltered query cat brand pmin pmax size color db).drop offset).take limit

/-- Python `4.5` (products_repository.py L503). -/
def demoRating : ℚ := 9 / 2

/-- Python dict `{id: name}` lookup with default (products_repository.py
L497-498, L501-502): for duplicate ids a Python dict keeps the last value. -/
def lookupBrandName (brands : List Brand) (bid : Nat) : String :=
  match brands.reverse.find? (fun b => b.id == bid) with
  | some b => b.name
  | none => "Unknown Brand"

/-- Dict lookup for category names (products_repository.py L498, L502). -/
def lookupCategoryName (cats : List Category) (cid : Nat) : String :=
  match cats.reverse.find? (fun c => c.id == cid) with
  | some c => c.name
  | none => "Unknown Category"

/-- The enrichment loop body of `_fallback_search` (products_repository.py
L500-504): writes `brand_name`, `category_name`, `avg_rating`,
`review_count` into the product dict. -/
def enrich (db : DB) (p : Product) : Product :=
  { p with
    brand_name := some (lookupBrandName db.brands p.brand_id)
    category_name := some (lookupCategoryName db.categories p.category_id)
    avg_rating := some demoRating
    review_count := some 10 }

/-- `ProductsRepository._fallback_search` (products_repository.py L398-506):
the value returned to the caller. -/
def fallbackSearch (query : Option String) (cat brand : Option Nat)
    (pmin pmax : Option ℚ) (size color : Option String) (limit offset : Nat)
    (db : DB) : List Product :=
  (fallbackPageRaw query cat brand pmin pmax size color limit offset db).map (enrich db)

/-- The `IN_MEMORY_DB` snapshot *after* a `_fallback_search` call.
`results = IN_MEMORY_DB["products"].copy()` (L428) copies only the list:
the dicts are shared, so the enrichment loop (L500-504) writes through into
the snapshot's product dicts of the returned page.  Shared dict identity is
rendered by product id (ids are uuid-generated and unique, db_connection.py
L39). -/
def fallbackSearchDBAfter (query : Option String) (cat brand : Option Nat)
    (pmin pmax : Option ℚ) (size color : Option String) (limit offset : Nat)
    (db : DB) : DB :=
  let pageIds := (fallbackPageRaw query cat brand pmin pmax size color limit offset db).map Product.id
  { db with products := db.products.map (fun p => if pageIds.contains p.id then enrich db p else p) }

/-- The parameter list built by the no-query branch of `search_products`
(products_repository.py L99-137): the present numeric filters, then
`limit` and `offset` — all numeric, so the simulated executor filters nothing. -/
def standardParams (a : SearchArgs) : List PyArg :=
  ((a.category_id.map (fun n => PyArg.num n)).toList ++
   (a.brand_id.map (fun n => PyArg.num n)).toList ++
   (a.price_min.map PyArg.num).toList ++
   (a.price_max.map PyArg.num).toList) ++
  [PyArg.num a.limit, PyArg.num a.offset]

/-- The no-query branch of `search_products` (products_repository.py L80-159):
simulated SQL query (whose WHERE/ORDER BY/LIMIT the in-memory executor
ignores), then the lenient size/color post-filter.  The `except` at L161-173
(fallback to `_fallback_search`) is unreachable here because the in-memory
`execute_query` is total. -/
def standardSearch (a : SearchArgs) (db : DB) : List Product :=
  lenientSizeColor a.size a.color (executeQueryProducts db true (standardParams a))

/-- The reordering loop of `hybrid_search` (products_repository.py L301-311):
walk the candidates in rank order, keep those with a SQL row of the same id
(first match, then `break`), copying the row and attaching the candidate's
`relevance_score` when it has one. -/
def mergeByCandidates (candidates sqlResults : List Product) : List Product :=
  candidates.filterMap (fun c =>
    match sqlResults.find? (fun s => s.id == c.id) with
    | some s =>
      some { s with relevance_score :=
        match c.relevance_score with
        | some r => some r
        | none => s.relevance_score }
    | none => none)

/-- The parameter list of the candidate-restricted SQL query
(products_repository.py L268-280): the candidate id list, then the present
price bounds — none of them strings, so the simulated executor filters
nothing. -/
def hybridSqlParams (candidateIds : List String) (pmin pmax : Option ℚ) : List PyArg :=
  PyArg.strList candidateIds :: ((pmin.map PyArg.num).toList ++ (pmax.map PyArg.num).toList)

/-- `ProductsRepository.hybrid_search` (products_repository.py L179-345).
`sem` is the outcome of the `vector_db.semantic_search` call at L233-237
(the vector-filters prepared at L216-229 are inputs to that external call).
With candidates and extra filters, the SQL-filter branch L250-314 runs; its
`except` L316-327 (`_filter_candidates`) is unreachable because the
in-memory `execute_query` is total.  Empty candidates or
`use_semantic_search=False` fall through to `_fallback_search` (L333-345). -/
def hybridSearchE (sem : Except Unit (List Product)) (q : String) (a : SearchArgs)
    (db : DB) : Except Unit (List Product) :=
  if a.use_semantic_search then
    match sem with
    | Except.error e => Except.error e
    | Except.ok candidates =>
      if candidates.isEmpty then
        -- L239-241 sets candidates = [] and control falls through to L333-345
        Except.ok (fallbackSearch (some q) a.category_id a.brand_id a.price_min a.price_max
          a.size a.color a.limit a.offset db)
      else
        -- `product_ids` is nonempty here, so L247's condition is just the filter test
        if a.price_min.isSome || a.price_max.isSome || a.size.isSome || a.color.isSome then
          let sqlResults := executeQueryProducts db true
            (hybridSqlParams (candidates.map Product.id) a.price_min a.price_max)
          let sqlResults := lenientSizeColor a.size a.color sqlResults
          let ordered := mergeByCandidates candidates sqlResults
          Except.ok ((ordered.drop a.offset).take a.limit)
        else
          Except.ok ((candidates.drop a.offset).take a.limit)
  else
    Except.ok (fallbackSearch (some q) a.category_id a.brand_id a.price_min a.price_max
      a.size a.color a.limit a.offset db)

/-- The body of the outer `try` of `search_products`
(products_repository.py L63-173): route to `hybrid_search` when the query
is truthy, otherwise the no-query branch. -/
def searchProductsBody (sem : Except Unit (List Product)) (a : SearchArgs)
    (db : DB) : Except Unit (List Product) :=
  match a.query with
  | some q => if q ≠ "" then hybridSearchE sem q a db else Except.ok (standardSearch a db)
  | none => Except.ok (standardSearch a db)

/-- `ProductsRepository.search_products` (products_repository.py L32-177):
the outer `except Exception` (L175-177) turns any escaped exception into the
empty result list. -/
def searchProductsE (sem : Except Unit (List Product)) (a : SearchArgs)
    (db : DB) : Except Unit (List Product) :=
  match searchProductsBody sem a db with
  | Except.ok r => Except.ok r
  | Except.error _ => Except.ok []

/-- The awaited value of a `search_products` call, for composing callers. -/
def searchProductsRun (sem : Except Unit (List Product)) (a : SearchArgs)
    (db : DB) : List Product :=
  match searchProductsE sem a db with
  | Except.ok r => r
  | Except.error _ => []

/-- Snapshot state after `search_products`/`hybrid_search`: the only path
that writes into the snapshot is `_fallback_search`'s enrichment; the
candidate-merge path copies each row (`sql_result.copy()`, L307) before
writing, and the no-query branch never writes. -/
def hybridSearchDBAfter (sem : Except Unit (List Product)) (q : String) (a : SearchArgs)
    (db : DB) : DB :=
  if a.use_semantic_search then
    match sem with
    | Except.error _ => db
    | Except.ok candidates =>
      if candidates.isEmpty then
        fallbackSearchDBAfter (some q) a.category_id a.brand_id a.price_min a.price_max
          a.size a.color a.limit a.offset db
      else db
  else
    fallbackSearchDBAfter (some q) a.category_id a.brand_id a.price_min a.price_max
      a.size a.color a.limit a.offset db

/-- Snapshot state after a `search_products` call. -/
def searchProductsDBAfter (sem : Except Unit (List Product)) (a : SearchArgs)
    (db : DB) : DB :=
  match a.query with
  | some q => if q ≠ "" then hybridSearchDBAfter sem q a db else db
  | none => db

/-- The fields of a product dict that search-time enrichment never writes. -/
def coreFields (p : Product) :
    String × String × String × Nat × Nat × ℚ × Option ℚ × Bool × Bool × Option Attrs :=
  (p.id, p.name, p.description, p.brand_id, p.category_id, p.price,
   p.sale_price, p.is_on_sale, p.is_featured, p.attributes)

/-- `min(limit * 3, 50)` — candidate count `hybrid_search` asks the semantic
tier for (products_repository.py L235). -/
def hybridCandidateLimit (limit : Nat) : Nat := min (limit * 3) 50

/-- `min(limit, 20)` — `n_results` that `semantic_search` passes to the ANN
index query (vector_db.py L192). -/
def vectorNResults (limit : Nat) : Nat := min limit 20

/-- Neighbors requested from the ANN index for a hybrid search with page
size `limit`: the composition of the two widenings. -/
def neighborsRequested (limit : Nat) : Nat := vectorNResults (hybridCandidateLimit limit)

/-- The `filtered_products` value of `semantic_search`'s post-filtering
(vector_db.py L236-247): price-min then price-max comprehension. -/
def priceFiltered (pmin pmax : Option ℚ) (l : List Product) : List Product :=
  let f1 := match pmin with | some v => priceMinFilter v l | none => l
  match pmax with | some v => priceMaxFilter v f1 | none => f1

/-- The post-filter block of `semantic_search` (vector_db.py L233-254):
`if filtered_products: products = filtered_products` — the filtered list
replaces the candidates only when it is nonempty. -/
def semanticPostFilter (hasFilters : Bool) (pmin pmax : Option ℚ)
    (products : List Product) : List Product :=
  if hasFilters then
    let f := priceFiltered pmin pmax products
    if f.isEmpty then products else f
  else products

/-- `ProductsRepository.check_inventory` (products_repository.py L572-612).
`storeFail` injects a backing-store failure: any exception in the body lands
in the `except` handler (L610-612), which returns `None`.  On the normal
path the function checks only the attribute sets and returns the mock row
`quantity = 5` (L600-607); `db.inventory` is never consulted. -/
def checkInventory (storeFail : Bool) (db : DB) (pid size color : String) :
    Option InvRecord :=
  if storeFail then none
  else
    match db.products.find? (fun p => p.id == pid) with
    | none => none
    | some p =>
      match p.attributes with
      | none => none
      | some a =>
        match a.sizes with
        | none => none
        | some ss =>
          if ss.contains size then
            match a.color with
            | none => none
            | some cs =>
              if cs.contains color then some ⟨pid, size, color, 5⟩ else none
          else none

/-- `available = inventory is not None and inventory.get("quantity", 0) > 0`
(products_agent.py L335). -/
def agentAvailable (inv : Option InvRecord) : Bool :=
  match inv with
  | some r => r.quantity > 0
  | none => false

/-- The `sort_by` preference extracted by the agent
(products_agent.py L156, L190, L251, L258). -/
inductive SortDir
  | asc
  | desc
deriving DecidableEq, Repr

/-- Agent-level name-to-id resolution for the category filter
(products_agent.py L85-90). -/
def resolveCategoryId (db : DB) (nm : Option String) : Option Nat :=
  nm.bind (fun s => (db.categories.find? (fun c => lowerStr c.name == lowerStr s)).map Category.id)

/-- Agent-level name-to-id resolution for the brand filter
(products_agent.py L93-98). -/
def resolveBrandId (db : DB) (nm : Option String) : Option Nat :=
  nm.bind (fun s => (db.brands.find? (fun b => lowerStr b.name == lowerStr s)).map Brand.id)

/-- `ProductsAgent.search_products` after parameter extraction
(products_agent.py L58-118): `semAvailable`/`semResult` model the
`semantic_search_products` call (it catches its own errors,
products_repository.py L525-535); empty semantic results fall back to
`repository.search_products(..., limit=params.get("limit", 10), offset=0,
use_semantic_search=False)`; finally the requested `sort` is applied to
whatever list came back — *after* the repository already truncated it. -/
def agentSearch (semAvailable : Bool) (semResult : List Product) (q : String)
    (sort : Option SortDir) (limitParam : Option Nat)
    (catName brandName : Option String) (pmin pmax : Option ℚ)
    (size color : Option String) (db : DB) : List Product :=
  let products := if semAvailable && q ≠ "" then semResult else []
  let products :=
    if products.isEmpty then
      searchProductsRun (Except.ok [])
        { query := some q
          category_id := resolveCategoryId db catName
          brand_id := resolveBrandId db brandName
          price_min := pmin, price_max := pmax, size := size, color := color
          limit := limitParam.getD 10, offset := 0
          use_semantic_search := false } db
    else products
  match sort with
  | some SortDir.desc => pySort (fun x y => decide (effPrice y < effPrice x)) products
  | some SortDir.asc => pySort (fun x y => decide (effPrice x < effPrice y)) products
  | none => products

/-- Frame predicate: `dbA` and `db` agree on brands, categories, inventory
and on every non-enrichment field of every product (same products, same
order). -/
def framePreserved (db dbA : DB) : Prop :=
  dbA.brands = db.brands ∧ dbA.categories = db.categories ∧
  dbA.inventory = db.inventory ∧
  dbA.products.map coreFields = db.products.map coreFields

/-! ### Concrete catalog snapshots used to evaluate the claims -/

/-- A one-product snapshot holding exactly `p` (used to evaluate the
single-product filter behaviour). -/
def dbOnly (p : Product) : DB := { brands := [], categories := [], products := [p] }

/-- A plain product, price 100, no sale, no attributes. -/
def prodAlpha : Product :=
  { id := "a1", name := "Alpha", description := "plain runner", brand_id := 1,
    category_id := 1, price := 100, sale_price := none, is_on_sale := false }

/-- Snapshot with the single product `prodAlpha` (claim C3). -/
def db1 : DB := { brands := [], categories := [], products := [prodAlpha] }

/-- First of the two products of `db2`. -/
def prodQ1 : Product :=
  { id := "q1", name := "Q One", description := "d1", brand_id := 1,
    category_id := 1, price := 100, sale_price := none, is_on_sale := false }

/-- Second of the two products of `db2`. -/
def prodQ2 : Product :=
  { id := "q2", name := "Q Two", description := "d2", brand_id := 1,
    category_id := 1, price := 110, sale_price := none, is_on_sale := false }

/-- A two-product snapshot (claim C2). -/
def db2 : DB := { brands := [], categories := [], products := [prodQ1, prodQ2] }

/-- Product whose enrichment is observed in the mutation counterexample. -/
def prodMut : Product :=
  { id := "x1", name := "Air", description := "d", brand_id := 1,
    category_id := 1, price := 100, sale_price := none, is_on_sale := false }

/-- Snapshot for the mutation counterexample (claim C4): the brand name
"Nike" is what `_fallback_search` writes into the product dict. -/
def db4 : DB :=
  { brands := [⟨1, "Nike"⟩], categories := [⟨1, "Running"⟩], products := [prodMut] }

/-- Candidate product P1 of the C5 ranking example, effective price 90. -/
def prodP1 : Product :=
  { id := "p1", name := "P One", description := "d1", brand_id := 1,
    category_id := 1, price := 90, sale_price := none, is_on_sale := false }

/-- Candidate product P2 of the C5 ranking example, effective price 200 —
the one the price filter `price_max = 150` should exclude. -/
def prodP2 : Product :=
  { id := "p2", name := "P Two", description := "d2", brand_id := 1,
    category_id := 1, price := 200, sale_price := none, is_on_sale := false }

/-- Candidate product P3 of the C5 ranking example, effective price 100. -/
def prodP3 : Product :=
  { id := "p3", name := "P Three", description := "d3", brand_id := 1,
    category_id := 1, price := 100, sale_price := none, is_on_sale := false }

/-- Snapshot for the C5 merge example. -/
def db5 : DB := { brands := [], categories := [], products := [prodP1, prodP2, prodP3] }

/-- The semantic candidates [(P1, 0.9), (P2, 0.7), (P3, 0.5)] of the C5
ranking example: the products with their relevance scores attached
(vector_db.py L217). -/
def cand1 : Product := { prodP1 with relevance_score := some (9 / 10) }

/-- Candidate (P2, 0.7). -/
def cand2 : Product := { prodP2 with relevance_score := some (7 / 10) }

/-- Candidate (P3, 0.5). -/
def cand3 : Product := { prodP3 with relevance_score := some (1 / 2) }

/-- The C6 example product: price 150, sale_price 130, on sale. -/
def prodSale : Product :=
  { id := "s1", name := "Sale Shoe", description := "d", brand_id := 1,
    category_id := 1, price := 150, sale_price := some 130, is_on_sale := true }

/-- The C6 example product: price 150, no sale_price. -/
def prodNoSale : Product :=
  { id := "s2", name := "Full Price Shoe", description := "d", brand_id := 1,
    category_id := 1, price := 150, sale_price := none, is_on_sale := false }

/-- Product with size "8" / color "black" variants (claim C7). -/
def prodInv : Product :=
  { id := "v1", name := "Variant Shoe", description := "d", brand_id := 1,
    category_id := 1, price := 100, sale_price := none, is_on_sale := false,
    attributes := some { sizes := some ["8"], color := some ["black"] } }

/-- Snapshot for the availability claim: the inventory table explicitly
records zero stock for the ("v1", "8", "black") variant. -/
def db7 : DB :=
  { brands := [], categories := [], products := [prodInv],
    inventory := [⟨"v1", "8", "black", 0⟩] }

/-- C8 catalog: effective price 80. -/
def prodA80 : Product :=
  { id := "c1", name := "Alpha Shoe", description := "da", brand_id := 1,
    category_id := 1, price := 80, sale_price := none, is_on_sale := false }

/-- C8 catalog: effective price 120 — the most expensive product, the one the
claim says a `sort_by="price-desc", limit=1` search returns. -/
def prodB120 : Product :=
  { id := "c2", name := "Beta Shoe", description := "db", brand_id := 1,
    category_id := 1, price := 120, sale_price := none, is_on_sale := false }

/-- C8 catalog: effective price 95. -/
def prodC95 : Product :=
  { id := "c3", name := "Gamma Shoe", description := "dc", brand_id := 1,
    category_id := 1, price := 95, sale_price := none, is_on_sale := false }

/-- Snapshot over effective prices [80, 120, 95] (claim C8). -/
def db8 : DB := { brands := [], categories := [], products := [prodA80, prodB120, prodC95] }

/-- The C10 witness candidate: effective price 150, failing `price_max = 100`. -/
def prodW : Product :=
  { id := "w1", name := "W", description := "d", brand_id := 1,
    category_id := 1, price := 150, sale_price := none, is_on_sale := false }

/-! ### Claim theorems -/

/-- Claim C1: for every well-formed query (any combination of filters and
semantic-tier outcome), `ProductsRepository.search_products` returns a list
(possibly empty) and never lets an exception reach its caller: internal tier
failures are absorbed, worst case into the empty list. -/
theorem search_products_never_raises
    (sem : Except Unit (List Product)) (a : SearchArgs) (db : DB) :
    ∃ l : List Product, searchProductsE sem a db = Except.ok l := by
  cases h : searchProductsBody sem a db with
  | error e => exact ⟨[], by simp [searchProductsE, h]⟩
  | ok r => exact ⟨r, by simp [searchProductsE, h]⟩

/-- Claim C2, evaluated at the failing input: a no-query search over the
two-product snapshot `db2` with `limit = 1` returns both products (the
simulated executor ignores the LIMIT parameter), and the next page
(`offset = 1`) returns the same two products again — so `len(results)` can
exceed `limit` and consecutive pages duplicate items. -/
theorem search_products_limit_offset_ignored_eval :
    searchProductsE (Except.ok []) { limit := 1 } db2 = Except.ok [prodQ1, prodQ2]
  ∧ searchProductsE (Except.ok []) { limit := 1, offset := 1 } db2 = Except.ok [prodQ1, prodQ2]
  ∧ [prodQ1, prodQ2].length = 2 := by
  refine ⟨rfl, rfl, rfl⟩

/-- Claim C9: the number of neighbors requested from the ANN index for a
hybrid search with page size `limit` is `min(limit * 3, hard_cap)` for a
fixed hard cap — namely 20, the composition of `hybrid_search`'s
`min(limit * 3, 50)` with `semantic_search`'s `min(limit, 20)`. -/
theorem ann_neighbors_request_min_capped :
    ∃ hardCap : Nat, ∀ limit : Nat, neighborsRequested limit = min (limit * 3) hardCap := by
  refine ⟨20, fun limit => ?_⟩
  unfold neighborsRequested vectorNResults hybridCandidateLimit
  omega

/-- Claim C10: when `semantic_search` is called with price filters and every
matched candidate fails them (the filtered list is empty), the whole
unfiltered candidate list is returned — the price filter is applied only
when at least one candidate survives it. -/
theorem semantic_price_filter_soft_fail
    (l : List Product) (pmin pmax : Option ℚ)
    (h : priceFiltered pmin pmax l = []) :
    semanticPostFilter true pmin pmax l = l := by
  simp [semanticPostFilter, h]

/-- Witness for C10 at a concrete input: the sole candidate (price 150)
fails `price_max = 100`, yet the candidate list is returned unfiltered. -/
theorem semantic_price_filter_soft_fail_witness :
    priceFiltered none (some 100) [prodW] = []
  ∧ semanticPostFilter true none (some 100) [prodW] = [prodW] :=
  ⟨by decide, semantic_price_filter_soft_fail [prodW] none (some 100) (by decide)⟩

/-- Claim C3, counterexample: over `db1`, a hybrid search for "zzz" whose
semantic tier returns no candidates yields `[]` (it runs the in-memory
fallback, whose text match excludes everything), while the structured-only
path with the same (empty) filters returns the whole catalog — the two
result sets differ, so the empty-semantic hybrid path is not the
`STRUCTURED_ONLY` path. -/
theorem hybrid_empty_semantic_ne_structured_only :
    hybridSearchE (Except.ok []) "zzz" {} db1 ≠ Except.ok (standardSearch {} db1) := by
  intro h
  have e : hybridSearchE (Except.ok []) "zzz" {} db1 = Except.ok [] := rfl
  rw [e] at h
  have e2 : standardSearch ({} : SearchArgs) db1 = [prodAlpha] := rfl
  rw [e2] at h
  injection h with h2
  exact absurd h2 (by decide)

/-- Claim C3, amended: when the semantic tier returns no candidates, a
hybrid search with text falls back to `_fallback_search` (the in-memory
tier) run with the query text and the full filters — not to the structured
store; and a semantic-tier exception is absorbed by `search_products`,
which returns the empty list, so no failure is surfaced to the caller. -/
theorem hybrid_empty_semantic_uses_fallback
    (q : String) (hq : q ≠ "") (a : SearchArgs) (db : DB) :
    hybridSearchE (Except.ok []) q a db =
      Except.ok (fallbackSearch (some q) a.category_id a.brand_id a.price_min a.price_max
        a.size a.color a.limit a.offset db)
  ∧ searchProductsE (Except.error ())
      { a with query := some q, use_semantic_search := true } db = Except.ok [] := by
  constructor
  · cases h : a.use_semantic_search <;> simp [hybridSearchE, h]
  · simp [searchProductsE, searchProductsBody, hq, hybridSearchE]

/-- Witness for the amended C3 at a concrete input. -/
theorem hybrid_empty_semantic_uses_fallback_witness :
    hybridSearchE (Except.ok []) "zzz" {} db1 =
      Except.ok (fallbackSearch (some "zzz") none none none none none none 10 0 db1)
  ∧ searchProductsE (Except.error ())
      { query := some "zzz", use_semantic_search := true } db1 = Except.ok [] :=
  hybrid_empty_semantic_uses_fallback "zzz" (by decide) {} db1

/-- Claim C5, evaluated at the failing input: candidates
[(P1, 0.9), (P2, 0.7), (P3, 0.5)] over `db5` with `price_max = 150` — a
structured filter that excludes P2 (effective price 200).  The merged result
keeps the candidates\' rank order and relevance scores, but it is
[P1, P2, P3], not the [P1, P3] the claim requires: the simulated executor
ignores the SQL price predicate, so the price filter never restricts the
candidates. -/
theorem hybrid_merge_price_filter_dropped_eval :
    hybridSearchE (Except.ok [cand1, cand2, cand3]) "running shoes"
      { query := some "running shoes", price_max := some 150 } db5
        = Except.ok [cand1, cand2, cand3]
  ∧ (effPrice prodP2 ≤ 150) = False
  ∧ hybridSearchE (Except.ok [cand1, cand2, cand3]) "running shoes"
      { query := some "running shoes", price_max := some 150 } db5
        ≠ Except.ok [cand1, cand3] := by
  refine ⟨rfl, by decide, ?_⟩
  intro h
  have e : hybridSearchE (Except.ok [cand1, cand2, cand3]) "running shoes"
      { query := some "running shoes", price_max := some 150 } db5
        = Except.ok [cand1, cand2, cand3] := rfl
  rw [e] at h
  injection h with h2
  have e2 := congrArg List.length h2
  simp at e2

/-- Claim C8, evaluated at the failing input: over the catalog `db8` with
effective prices [80, 120, 95], the agent search with
`sort_by = "price-desc"` and `limit = 1` returns the product priced 80, not
the product priced 120 — the repository truncates to `limit` (by its
default featured/price-ascending order) before the agent applies the
requested sort. -/
theorem agent_sort_after_limit_eval :
    agentSearch false [] "shoe" (some SortDir.desc) (some 1)
      none none none none none none db8 = [enrich db8 prodA80]
  ∧ (enrich db8 prodA80).price = 80
  ∧ (enrich db8 prodB120).price = 120
  ∧ agentSearch false [] "shoe" (some SortDir.desc) (some 1)
      none none none none none none db8 ≠ [enrich db8 prodB120] := by
  refine ⟨rfl, rfl, rfl, ?_⟩
  intro h
  have e : (agentSearch false [] "shoe" (some SortDir.desc) (some 1)
      none none none none none none db8).map Product.price = [(80 : ℚ)] := rfl
  rw [h] at e
  have e2 : ([enrich db8 prodB120].map Product.price) = [(120 : ℚ)] := rfl
  rw [e2] at e
  exact absurd e (by decide)

lemma framePreserved_refl (db : DB) : framePreserved db db := ⟨rfl, rfl, rfl, rfl⟩

lemma map_coreFields_markPage (db : DB) (ids : List String) (l : List Product) :
    (l.map (fun p => if ids.contains p.id then enrich db p else p)).map coreFields
      = l.map coreFields := by
  induction l with
  | nil => rfl
  | cons x xs ih =>
    simp only [List.map_cons, ih, List.cons.injEq, and_true]
    cases h : ids.contains x.id
    · simp [h]
    · simp [h]
      rfl

lemma frame_fallbackDBAfter (query : Option String) (cat brand : Option Nat)
    (pmin pmax : Option ℚ) (size color : Option String) (limit offset : Nat) (db : DB) :
    framePreserved db
      (fallbackSearchDBAfter query cat brand pmin pmax size color limit offset db) :=
  ⟨rfl, rfl, rfl, map_coreFields_markPage db _ db.products⟩

lemma frame_hybridDBAfter (sem : Except Unit (List Product)) (q : String)
    (a : SearchArgs) (db : DB) :
    framePreserved db (hybridSearchDBAfter sem q a db) := by
  cases hu : a.use_semantic_search
  · simp only [hybridSearchDBAfter, hu, Bool.false_eq_true, if_false]
    exact frame_fallbackDBAfter _ _ _ _ _ _ _ _ _ db
  · simp only [hybridSearchDBAfter, hu, if_true]
    cases sem with
    | error e => exact framePreserved_refl db
    | ok c =>
      cases hc : c.isEmpty
      · simp only [hc, Bool.false_eq_true, if_false]
        exact framePreserved_refl db
      · simp only [hc, if_true]
        exact frame_fallbackDBAfter _ _ _ _ _ _ _ _ _ db

lemma frame_searchDBAfter (sem : Except Unit (List Product)) (a : SearchArgs) (db : DB) :
    framePreserved db (searchProductsDBAfter sem a db) := by
  cases hq : a.query with
  | none =>
    simp only [searchProductsDBAfter, hq]
    exact framePreserved_refl db
  | some q2 =>
    simp only [searchProductsDBAfter, hq]
    split
    · exact frame_hybridDBAfter sem q2 a db
    · exact framePreserved_refl db

/-- Claim C4, counterexample: a `_fallback_search` call over `db4` (no
filters at all) changes the snapshot — `list.copy()` copies only the list,
and the enrichment loop writes `brand_name` (and category_name, avg_rating,
review_count) through the shared dicts into `IN_MEMORY_DB["products"]`. -/
theorem fallback_search_mutates_snapshot :
    fallbackSearchDBAfter none none none none none none none 10 0 db4 ≠ db4 := by
  intro h
  have e : (fallbackSearchDBAfter none none none none none none none 10 0 db4).products.map
      Product.brand_name = [some "Nike"] := rfl
  rw [h] at e
  exact absurd e (by decide)

/-- Claim C4, amended: no search path adds or removes snapshot rows or
touches brands, categories, inventory, or any non-enrichment product field;
the only in-place mutation is `_fallback_search` overwriting the enrichment
keys (brand_name, category_name, avg_rating, review_count) of the products
of the returned page. -/
theorem search_mutation_scope (sem : Except Unit (List Product)) (q : String)
    (a : SearchArgs) (query : Option String) (cat brand : Option Nat)
    (pmin pmax : Option ℚ) (size color : Option String) (limit offset : Nat)
    (db : DB) :
    framePreserved db
      (fallbackSearchDBAfter query cat brand pmin pmax size color limit offset db)
  ∧ framePreserved db (hybridSearchDBAfter sem q a db)
  ∧ framePreserved db (searchProductsDBAfter sem a db) :=
  ⟨frame_fallbackDBAfter query cat brand pmin pmax size color limit offset db,
   frame_hybridDBAfter sem q a db, frame_searchDBAfter sem a db⟩

lemma effPrice_eq_claimEffPrice (p : Product)
    (hwf : p.is_on_sale = true → ∃ sp, p.sale_price = some sp ∧ sp ≠ 0) :
    effPrice p = claimEffPrice p := by
  unfold effPrice claimEffPrice
  cases hsp : p.sale_price with
  | none => cases hos : p.is_on_sale <;> simp
  | some sp =>
    cases hos : p.is_on_sale
    · simp
    · obtain ⟨sp2, hsp2, hne⟩ := hwf hos
      rw [hsp] at hsp2
      injection hsp2 with hsp3
      subst hsp3
      simp [hne]

/-- Claim C6: both `_filter_candidates` and `_fallback_search` compare price
bounds against the effective price — sale_price when the product is on sale,
price otherwise — for every product whose sale data is well-formed
(`is_on_sale` implies a nonzero `sale_price`, the spec's invariant
`is_on_sale ⇒ sale_price < price` with positive prices). -/
theorem price_filters_use_effective_price (p : Product) (m : ℚ)
    (hwf : p.is_on_sale = true → ∃ sp, p.sale_price = some sp ∧ sp ≠ 0) :
    effPrice p = claimEffPrice p
  ∧ filterCandidates [p] none (some m) none none 10 0
      = (if claimEffPrice p ≤ m then [p] else [])
  ∧ filterCandidates [p] (some m) none none none 10 0
      = (if m ≤ claimEffPrice p then [p] else [])
  ∧ fallbackSearch none none none none (some m) none none 10 0 (dbOnly p)
      = (if claimEffPrice p ≤ m then [enrich (dbOnly p) p] else []) := by
  have heq := effPrice_eq_claimEffPrice p hwf
  refine ⟨heq, ?_, ?_, ?_⟩
  · rw [← heq]
    by_cases hm : effPrice p ≤ m
    · simp [filterCandidates, priceMaxFilter, strictSizeFilter, strictColorFilter,
        List.filter_cons, hm]
    · simp [filterCandidates, priceMaxFilter, strictSizeFilter, strictColorFilter,
        List.filter_cons, hm]
  · rw [← heq]
    by_cases hm : m ≤ effPrice p
    · simp [filterCandidates, priceMinFilter, strictSizeFilter, strictColorFilter,
        List.filter_cons, hm]
    · simp [filterCandidates, priceMinFilter, strictSizeFilter, strictColorFilter,
        List.filter_cons, hm]
  · rw [← heq]
    by_cases hm : effPrice p ≤ m
    · simp [fallbackSearch, fallbackPageRaw, fallbackFiltered, priceMaxFilter,
        strictSizeFilter, strictColorFilter, List.filter_cons, hm, dbOnly,
        pySort, pyInsert]
    · simp [fallbackSearch, fallbackPageRaw, fallbackFiltered, priceMaxFilter,
        strictSizeFilter, strictColorFilter, List.filter_cons, hm, dbOnly,
        pySort, pyInsert]

/-- Witness for C6 at the spec\'s concrete inputs: the on-sale product
(price 150, sale_price 130) is included by `price_max = 140` in the
candidate filter, and the product (price 150, no sale_price) is excluded
by `price_max = 140` in the fallback search. -/
theorem price_filters_use_effective_price_witness :
    filterCandidates [prodSale] none (some 140) none none 10 0 = [prodSale]
  ∧ fallbackSearch none none none none (some 140) none none 10 0 (dbOnly prodNoSale) = [] := by
  constructor
  · exact ((price_filters_use_effective_price prodSale 140
      (fun _ => ⟨130, rfl, by decide⟩)).2.1).trans (by decide)
  · exact ((price_filters_use_effective_price prodNoSale 140
      (fun hc => absurd hc (by decide))).2.2.2).trans (by decide)

/-- Claim C7, counterexample over `db7`, whose inventory table records zero
stock for the existing variant ("v1", "8", "black"): the variant is reported
with the mock quantity 5, never 0 (the inventory table is not consulted);
an injected store failure returns `None` — the very same value as a
nonexistent variant, and the agent\'s availability flag cannot tell the two
apart — so there is no explicit "unknown" tri-state. -/
theorem check_inventory_not_tristate :
    checkInventory false db7 "v1" "8" "black" = some ⟨"v1", "8", "black", 5⟩
  ∧ checkInventory true db7 "v1" "8" "black" = none
  ∧ checkInventory false db7 "missing" "8" "black" = none
  ∧ agentAvailable (checkInventory true db7 "v1" "8" "black")
      = agentAvailable (checkInventory false db7 "missing" "8" "black") := by
  refine ⟨rfl, rfl, rfl, rfl⟩

/-- Claim C7, amended: the availability check is two-state, not tri-state —
a store failure (or any internal error) yields `None`, indistinguishable
from a nonexistent variant, and every successful lookup reports the mock
quantity 5; `quantity = 0` is never reported, whatever the stock records
say. -/
theorem check_inventory_two_state (fail : Bool) (db : DB) (pid size color : String) :
    checkInventory true db pid size color = none
  ∧ ((checkInventory fail db pid size color).map InvRecord.quantity = none
     ∨ (checkInventory fail db pid size color).map InvRecord.quantity = some 5) := by
  refine ⟨rfl, ?_⟩
  unfold checkInventory
  cases fail
  · cases hf : db.products.find? (fun p => p.id == pid) with
    | none => simp [hf]
    | some p =>
      cases hpa : p.attributes with
      | none => simp [hf, hpa]
      | some a =>
        cases hsz : a.sizes with
        | none => simp [hf, hpa, hsz]
        | some ss =>
          cases hs : ss.contains size
          · have hs2 : size ∉ ss := by simpa using hs
            simp [hf, hpa, hsz, hs2]
          · have hs2 : size ∈ ss := by simpa using hs
            cases hcl : a.color with
            | none => simp [hf, hpa, hsz, hs2, hcl]
            | some cs =>
              cases hc : cs.contains color
              · have hc2 : color ∉ cs := by simpa using hc
                simp [hf, hpa, hsz, hs2, hcl, hc2]
              · have hc2 : color ∈ cs := by simpa using hc
                simp [hf, hpa, hsz, hs2, hcl, hc2]
  · simp

end Supportly
